import Mathlib

/-
Verification of the Weather Application core: a shallow embedding of the
weather-data gateway (js/weather.js, embedded here from src/unnamed/part_000),
the refresh and alert scheduler (js/app.js, src/unnamed/part_001), the user
store (js/user.js) and the configuration (js/config.js), together with
theorems settling the specification claims about them.

JavaScript numbers that hold unix timestamps are modelled as Nat, fractional
quantities (temperatures, coordinates) as Rat, provider payloads whose
structure the claims never inspect as opaque Nat tokens, thrown exceptions as
Except/Option, and the browser's localStorage content as explicit values
threaded through the functions.
-/

namespace WeatherVerify

/-- Character-list prefix test; building block for the substring test below. -/
def startsWithList : List Char → List Char → Bool
  | [], _ => true
  | _ :: _, [] => false
  | a :: as, b :: bs => a == b && startsWithList as bs

/-- Character-list substring containment: does the second list contain the
first as a contiguous run?  Models JavaScript String.prototype.includes. -/
def containsList (pat : List Char) : List Char → Bool
  | [] => pat.isEmpty
  | h :: t => startsWithList pat (h :: t) || containsList pat t

/-- String substring test, `strIncludes hay sub` is `hay.includes(sub)`. -/
def strIncludes (hay sub : String) : Bool :=
  containsList sub.data hay.data

/-- Character-wise lowercase, modelling JavaScript String.prototype.toLowerCase
on the ASCII keywords and alert texts this application handles. -/
def strToLower (s : String) : String :=
  String.mk (s.data.map Char.toLower)

/-- Alert record as delivered by the OneCall endpoint and consumed by
`getAlertSeverity` and `showAlertNotifications`.  The JavaScript field `end`
is a Lean keyword and is rendered `ends`. -/
structure Alert where
  event : String
  start : Nat
  ends : Nat
  description : String
deriving Repr, DecidableEq

/-- CONFIG.ALERTS.SEVERITY_LEVELS from js/config.js, in declaration order
(Object.entries preserves string-key insertion order: SEVERE, MODERATE,
MINOR). -/
def SEVERITY_LEVELS : List (String × List String) :=
  [("SEVERE", ["Hurricane", "Tornado", "Extreme Thunderstorm", "Flood", "Tsunami"]),
   ("MODERATE", ["Thunderstorm", "Rain", "Snow", "Fog", "Wind"]),
   ("MINOR", ["Cloudy", "Drizzle", "Light Rain"])]

/-- Inner double loop of WeatherService.getAlertSeverity: walk the severity
table in order, return the lowercased level name at the first entry one of
whose keywords occurs (case-insensitively) in the event or the description,
and fall through to "moderate". -/
def scanLevels (event description : String) : List (String × List String) → String
  | [] => "moderate"
  | (level, keywords) :: rest =>
    if keywords.any (fun keyword =>
        strIncludes event (strToLower keyword) || strIncludes description (strToLower keyword)) then
      strToLower level
    else
      scanLevels event description rest

/-- WeatherService.getAlertSeverity (src/unnamed/part_000, lines 324-340). -/
def getAlertSeverity (alert : Alert) : String :=
  scanLevels (strToLower alert.event) (strToLower alert.description) SEVERITY_LEVELS

/-- Predicate used to state the ordered-lookup property: some keyword of the
given table row occurs case-insensitively in the alert's event or
description. -/
def matchesLevel (alert : Alert) (keywords : List String) : Bool :=
  keywords.any (fun keyword =>
    strIncludes (strToLower alert.event) (strToLower keyword) ||
    strIncludes (strToLower alert.description) (strToLower keyword))

/-- C1: for every alert, getAlertSeverity returns exactly one of severe,
moderate, minor; the tables are scanned in declaration order (severe before
moderate before minor), the first row with a case-insensitive substring match
against event or description wins, and no match at all yields moderate. -/
theorem getAlertSeverity_total_and_ordered (a : Alert) :
    (getAlertSeverity a = "severe" ∨ getAlertSeverity a = "moderate" ∨
      getAlertSeverity a = "minor") ∧
    getAlertSeverity a =
      (if matchesLevel a ["Hurricane", "Tornado", "Extreme Thunderstorm", "Flood", "Tsunami"]
        then "severe"
        else if matchesLevel a ["Thunderstorm", "Rain", "Snow", "Fog", "Wind"]
          then "moderate"
          else if matchesLevel a ["Cloudy", "Drizzle", "Light Rain"]
            then "minor"
            else "moderate") := by
  have hmain : getAlertSeverity a =
      (if matchesLevel a ["Hurricane", "Tornado", "Extreme Thunderstorm", "Flood", "Tsunami"]
        then "severe"
        else if matchesLevel a ["Thunderstorm", "Rain", "Snow", "Fog", "Wind"]
          then "moderate"
          else if matchesLevel a ["Cloudy", "Drizzle", "Light Rain"]
            then "minor"
            else "moderate") := by
    simp only [getAlertSeverity, SEVERITY_LEVELS, scanLevels, matchesLevel,
      (show strToLower "SEVERE" = "severe" by decide),
      (show strToLower "MODERATE" = "moderate" by decide),
      (show strToLower "MINOR" = "minor" by decide)]
  refine ⟨?_, hmain⟩
  rw [hmain]
  split
  · exact Or.inl rfl
  split
  · exact Or.inr (Or.inl rfl)
  split
  · exact Or.inr (Or.inr rfl)
  · exact Or.inr (Or.inl rfl)

/-- Alert identity string `${alert.event}-${alert.start}-${alert.end}` used by
WeatherApp.showAlertNotifications for deduplication. -/
def alertId (a : Alert) : String :=
  a.event ++ "-" ++ toString a.start ++ "-" ++ toString a.ends

/-- WeatherApp.showAlertNotifications (src/unnamed/part_001, lines 460-506):
given the persisted shownAlerts log and a freshly fetched alert list, filter
out alerts whose identity is already logged, raise a notification for each
remaining alert, and append their identities to the log.  Returns the new log
and the list of alerts for which a notification was raised. -/
def showAlertNotifications (shownAlerts : List String) (alerts : List Alert) :
    List String × List Alert :=
  if alerts.isEmpty then (shownAlerts, [])
  else if (alerts.filter (fun a => !(shownAlerts.contains (alertId a)))).isEmpty then
    (shownAlerts, [])
  else
    (shownAlerts ++ (alerts.filter (fun a => !(shownAlerts.contains (alertId a)))).map alertId,
     alerts.filter (fun a => !(shownAlerts.contains (alertId a))))

/-- Repeated polls: run showAlertNotifications over a sequence of fetched
alert lists, threading the persisted log, and collect every notification
raised across the whole sequence. -/
def runPolls (shownAlerts : List String) : List (List Alert) → List String × List Alert
  | [] => (shownAlerts, [])
  | poll :: rest =>
    let step := showAlertNotifications shownAlerts poll
    let next := runPolls step.1 rest
    (next.1, step.2 ++ next.2)

lemma showAlert_notes_eq (log : List String) (p : List Alert) :
    (showAlertNotifications log p).2 =
      p.filter (fun a => !(log.contains (alertId a))) := by
  unfold showAlertNotifications
  split_ifs with h1 h2
  · rw [List.isEmpty_iff] at h1
    subst h1
    rfl
  · rw [List.isEmpty_iff] at h2
    exact h2.symm
  · rfl

lemma showAlert_log_eq (log : List String) (p : List Alert) :
    (showAlertNotifications log p).1 =
      log ++ (p.filter (fun a => !(log.contains (alertId a)))).map alertId := by
  unfold showAlertNotifications
  split_ifs with h1 h2
  · rw [List.isEmpty_iff] at h1
    subst h1
    simp
  · rw [List.isEmpty_iff] at h2
    rw [h2]
    simp
  · rfl

lemma showAlert_log_mono (log : List String) (p : List Alert) (i : String)
    (h : i ∈ log) : i ∈ (showAlertNotifications log p).1 := by
  rw [showAlert_log_eq]
  exact List.mem_append_left _ h

lemma showAlert_notes_count_le (log : List String) (p : List Alert) (i : String) :
    ((showAlertNotifications log p).2.countP (fun a => alertId a == i)) ≤
      p.countP (fun a => alertId a == i) := by
  rw [showAlert_notes_eq]
  exact List.Sublist.countP_le _ (List.filter_sublist p)

lemma showAlert_no_renotify (log : List String) (p : List Alert) (i : String)
    (h : i ∈ log) :
    ((showAlertNotifications log p).2.countP (fun a => alertId a == i)) = 0 := by
  rw [showAlert_notes_eq, List.countP_eq_zero]
  intro a ha hbeq
  rcases List.mem_filter.mp ha with ⟨_, hfilt⟩
  rw [eq_of_beq hbeq] at hfilt
  rw [Bool.not_eq_true', ← Bool.not_eq_true] at hfilt
  exact hfilt (List.elem_iff.mpr h)

lemma showAlert_notes_in_log (log : List String) (p : List Alert) (a : Alert)
    (h : a ∈ (showAlertNotifications log p).2) :
    alertId a ∈ (showAlertNotifications log p).1 := by
  rw [showAlert_notes_eq] at h
  rw [showAlert_log_eq]
  exact List.mem_append_right _ (List.mem_map_of_mem _ h)

lemma runPolls_log_mono (polls : List (List Alert)) (log : List String) (i : String)
    (h : i ∈ log) : i ∈ (runPolls log polls).1 := by
  induction polls generalizing log with
  | nil => exact h
  | cons p ps ih =>
    show i ∈ (runPolls (showAlertNotifications log p).1 ps).1
    exact ih _ (showAlert_log_mono _ _ _ h)

lemma runPolls_count_zero (polls : List (List Alert)) (log : List String) (i : String)
    (h : i ∈ log) :
    ((runPolls log polls).2.countP (fun a => alertId a == i)) = 0 := by
  induction polls generalizing log with
  | nil => rfl
  | cons p ps ih =>
    show (((showAlertNotifications log p).2 ++
      (runPolls (showAlertNotifications log p).1 ps).2).countP (fun a => alertId a == i)) = 0
    rw [List.countP_append, showAlert_no_renotify _ _ _ h,
      ih _ (showAlert_log_mono _ _ _ h)]

lemma runPolls_count_le_one :
    ∀ (polls : List (List Alert)) (log : List String) (i : String),
    (∀ p ∈ polls, (p.countP (fun a => alertId a == i)) ≤ 1) →
    ((runPolls log polls).2.countP (fun a => alertId a == i)) ≤ 1
  | [], _, _, _ => Nat.zero_le 1
  | p :: ps, log, i, h => by
    show (((showAlertNotifications log p).2 ++
      (runPolls (showAlertNotifications log p).1 ps).2).countP (fun a => alertId a == i)) ≤ 1
    rw [List.countP_append]
    rcases Nat.eq_zero_or_pos
        ((showAlertNotifications log p).2.countP (fun a => alertId a == i)) with h0 | hpos
    · rw [h0, Nat.zero_add]
      exact runPolls_count_le_one ps _ i (fun q hq => h q (List.mem_cons_of_mem _ hq))
    · obtain ⟨a, ha, hai⟩ := List.countP_pos_iff.mp hpos
      have hmem : i ∈ (showAlertNotifications log p).1 := by
        have hin := showAlert_notes_in_log log p a ha
        rwa [eq_of_beq hai] at hin
      rw [runPolls_count_zero ps _ i hmem, Nat.add_zero]
      exact le_trans (showAlert_notes_count_le log p i) (h p (List.mem_cons_self p ps))

lemma runPolls_notes_in_final_log :
    ∀ (polls : List (List Alert)) (log : List String),
    ∀ a ∈ (runPolls log polls).2, alertId a ∈ (runPolls log polls).1
  | [], _, _, ha => absurd ha (List.not_mem_nil _)
  | p :: ps, log, a, ha => by
    have ha' : a ∈ (showAlertNotifications log p).2 ++
        (runPolls (showAlertNotifications log p).1 ps).2 := ha
    show alertId a ∈ (runPolls (showAlertNotifications log p).1 ps).1
    rcases List.mem_append.mp ha' with h1 | h2
    · exact runPolls_log_mono ps _ _ (showAlert_notes_in_log log p a h1)
    · exact runPolls_notes_in_final_log ps _ a h2

/-- Two alerts with identical identity triple but different description text,
as they could arrive in a single poll of the OneCall alerts endpoint. -/
def stormAlertA : Alert :=
  { event := "Storm", start := 1000, ends := 2000, description := "first wording" }

/-- Companion alert to stormAlertA, same (event, start, end), other text. -/
def stormAlertB : Alert :=
  { event := "Storm", start := 1000, ends := 2000, description := "second wording" }

/-- C2 counterexample: two alerts with identical (event, startsAt, endsAt) but
different description text, both contained in a single poll's alert list, are
BOTH notified — showAlertNotifications computes the already-notified filter
once per poll against the persisted log only, so it does not deduplicate
within the batch, and the identity is notified twice rather than at most
once. -/
theorem showAlertNotifications_same_poll_double_notify :
    alertId stormAlertA = alertId stormAlertB ∧
    stormAlertA.description ≠ stormAlertB.description ∧
    ((runPolls [] [[stormAlertA, stormAlertB]]).2.countP
      (fun a => alertId a == alertId stormAlertA)) = 2 := by
  refine ⟨rfl, by decide, ?_⟩
  rfl

/-- C2 amended: provided the two identical-identity alerts never occur in the
same single poll (each poll's list holds at most one alert of that identity),
the deduplication step notifies that identity at most once across the whole
poll sequence — even when the description text differs between the alerts —
and every notified alert's identity ends up appended to the persisted
notified-alert log. -/
theorem showAlertNotifications_dedup_across_polls (log : List String)
    (polls : List (List Alert)) (i : String)
    (h : ∀ p ∈ polls, (p.countP (fun a => alertId a == i)) ≤ 1) :
    ((runPolls log polls).2.countP (fun a => alertId a == i)) ≤ 1 ∧
    (∀ a ∈ (runPolls log polls).2, alertId a ∈ (runPolls log polls).1) :=
  ⟨runPolls_count_le_one polls log i h, runPolls_notes_in_final_log polls log⟩

/-- Witness for the amended C2 theorem at a concrete two-poll sequence that
delivers the same identity twice with different descriptions. -/
theorem showAlertNotifications_dedup_across_polls_witness :
    ((runPolls [] [[stormAlertA], [stormAlertB]]).2.countP
      (fun a => alertId a == alertId stormAlertA)) ≤ 1 ∧
    (∀ a ∈ (runPolls [] [[stormAlertA], [stormAlertB]]).2,
      alertId a ∈ (runPolls [] [[stormAlertA], [stormAlertB]]).1) :=
  showAlertNotifications_dedup_across_polls [] [[stormAlertA], [stormAlertB]]
    (alertId stormAlertA) (by decide)

/-- Location record as built by WeatherApp from geocoding results. -/
structure Location where
  lat : ℚ
  lon : ℚ
  name : String
  country : String
deriving Repr, DecidableEq

/-- OneCall endpoint payload as consumed by fetchWeatherData: daily is always
present, hourly and alerts may be absent from the JSON (hence Option); daily
and hourly entries are opaque payload tokens. -/
structure OneCallData where
  daily : List Nat
  hourly : Option (List Nat)
  alerts : Option (List Alert)
deriving Repr, DecidableEq

/-- Combined snapshot stored in WeatherApp.weatherData. -/
structure WeatherData where
  current : Nat
  forecast : List Nat
  hourly : List Nat
  alerts : List Alert
deriving Repr, DecidableEq

/-- WeatherApp.fetchWeatherData (src/unnamed/part_001, lines 268-318), data
part: awaits getOneCallData, then getCurrentWeather, and only when both
succeed replaces weatherData with the combined snapshot built from the two
responses; a thrown error is caught, leaving weatherData as it was and
surfacing the message via showError.  Returns the resulting weatherData and
the surfaced error, if any. -/
def fetchWeatherData (currentLocation : Option Location)
    (weatherData : Option WeatherData)
    (oneCallResult : Except String OneCallData)
    (currentResult : Except String Nat) :
    Option WeatherData × Option String :=
  match currentLocation with
  | none => (weatherData, none)
  | some _ =>
    match oneCallResult with
    | Except.error e => (weatherData, some e)
    | Except.ok oneCallData =>
      match currentResult with
      | Except.error e => (weatherData, some e)
      | Except.ok currentWeather =>
        (some { current := currentWeather
                forecast := oneCallData.daily
                hourly := oneCallData.hourly.getD []
                alerts := oneCallData.alerts.getD [] }, none)

/-- C3: a failed fetch leaves the previous snapshot entirely unchanged.
Whenever either constituent request of fetchWeatherData throws, the stored
WeatherSnapshot equals the previous one — never partially updated. -/
theorem fetchWeatherData_snapshot_atomic_on_failure (loc : Option Location)
    (prev : Option WeatherData) (oneCallResult : Except String OneCallData)
    (currentResult : Except String Nat)
    (h : (∃ e, oneCallResult = Except.error e) ∨
      (∃ e, currentResult = Except.error e)) :
    (fetchWeatherData loc prev oneCallResult currentResult).1 = prev := by
  rcases h with ⟨e, he⟩ | ⟨e, he⟩
  · subst he
    cases loc <;> rfl
  · subst he
    cases loc with
    | none => rfl
    | some _ => cases oneCallResult <;> rfl

/-- Default location of js/config.js, used as a concrete test fixture. -/
def nyc : Location :=
  { lat := 40.7128, lon := -74.006, name := "New York", country := "US" }

/-- Concrete prior snapshot used by the witnesses below. -/
def sampleSnapshot : WeatherData :=
  { current := 7, forecast := [1, 2, 3], hourly := [4, 5], alerts := [] }

/-- Witness for C3: a failing OneCall request leaves the stored snapshot
exactly as it was. -/
theorem fetchWeatherData_snapshot_atomic_on_failure_witness :
    ((∃ e, (Except.error "OneCall API error: 500 Internal Server Error" :
        Except String OneCallData) = Except.error e) ∨
      (∃ e, (Except.ok 7 : Except String Nat) = Except.error e)) ∧
    (fetchWeatherData (some nyc) (some sampleSnapshot)
      (Except.error "OneCall API error: 500 Internal Server Error")
      (Except.ok 7)).1 = some sampleSnapshot :=
  ⟨Or.inl ⟨_, rfl⟩,
    fetchWeatherData_snapshot_atomic_on_failure (some nyc) (some sampleSnapshot) _ _
      (Or.inl ⟨_, rfl⟩)⟩

/-- Scheduler-relevant mutable state of WeatherApp: the active location, the
stored snapshot, whether the one-shot auto-refresh setTimeout is currently
armed, and the last error message surfaced via showError. -/
structure AppState where
  currentLocation : Option Location
  weatherData : Option WeatherData
  refreshTimerArmed : Bool
  lastError : Option String
deriving Repr, DecidableEq

/-- WeatherApp.fetchWeatherData as a transition on AppState: on success it
stores the combined snapshot and re-arms the auto-refresh timer via
setupAutoRefresh, which is reached only at the end of the try block; on a
thrown error the catch surfaces the message and nothing else changes — in
particular setupAutoRefresh is not reached. -/
def fetchWeatherDataRun (s : AppState) (oneCallResult : Except String OneCallData)
    (currentResult : Except String Nat) : AppState :=
  match s.currentLocation with
  | none => s
  | some _ =>
    match oneCallResult with
    | Except.error e => { s with lastError := some e }
    | Except.ok oneCallData =>
      match currentResult with
      | Except.error e => { s with lastError := some e }
      | Except.ok currentWeather =>
        { s with
          weatherData := some
            { current := currentWeather
              forecast := oneCallData.daily
              hourly := oneCallData.hourly.getD []
              alerts := oneCallData.alerts.getD [] }
          refreshTimerArmed := true }

/-- Firing of the armed auto-refresh timer (WeatherApp.setupAutoRefresh,
src/unnamed/part_001, lines 557-569): setTimeout is one-shot, so firing
disarms the timer before the callback runs; the callback re-fetches only when
a location is set, and only a successful fetch re-arms the timer. -/
def refreshTimerFires (s : AppState) (oneCallResult : Except String OneCallData)
    (currentResult : Except String Nat) : AppState :=
  if s.refreshTimerArmed then
    fetchWeatherDataRun { s with refreshTimerArmed := false } oneCallResult currentResult
  else s

/-- Concrete Ready state: active location, snapshot present, refresh timer
armed, no error showing. -/
def readyState : AppState :=
  { currentLocation := some nyc
    weatherData := some sampleSnapshot
    refreshTimerArmed := true
    lastError := none }

/-- C4 counterexample: when the armed refresh timer fires and the fetch
fails, the prior snapshot is kept and the error is surfaced, but the next
full refresh is NOT rescheduled: setupAutoRefresh sits after the awaits
inside the try block, so the thrown error skips it and the one-shot timer
stays disarmed — against the claim that the next refresh is still scheduled
at the configured interval. -/
theorem refreshTimer_not_rescheduled_on_failure :
    readyState.refreshTimerArmed = true ∧
    (refreshTimerFires readyState
      (Except.error "OneCall API error: 500 Internal Server Error")
      (Except.ok 7)).refreshTimerArmed = false ∧
    (refreshTimerFires readyState
      (Except.error "OneCall API error: 500 Internal Server Error")
      (Except.ok 7)).weatherData = some sampleSnapshot ∧
    (refreshTimerFires readyState
      (Except.error "OneCall API error: 500 Internal Server Error")
      (Except.ok 7)).lastError =
        some "OneCall API error: 500 Internal Server Error" :=
  ⟨rfl, rfl, rfl, rfl⟩

/-- C4 amended: when the armed full-refresh timer fires and the fetch fails,
the error is surfaced and the prior WeatherSnapshot is untouched, but the
refresh timer is left disarmed — the next full refresh is NOT rescheduled;
rescheduling happens only on a successful fetch, so a transient failure does
disable auto-refresh until a later successful fetch re-arms it. -/
theorem refreshTimer_failure_behavior (loc : Location) (wd : Option WeatherData)
    (le : Option String) (oneCallResult : Except String OneCallData)
    (currentResult : Except String Nat)
    (hfail : (∃ e, oneCallResult = Except.error e) ∨
      ((∃ d, oneCallResult = Except.ok d) ∧ ∃ e, currentResult = Except.error e)) :
    (refreshTimerFires
      { currentLocation := some loc, weatherData := wd,
        refreshTimerArmed := true, lastError := le }
      oneCallResult currentResult).weatherData = wd ∧
    (∃ e, (refreshTimerFires
      { currentLocation := some loc, weatherData := wd,
        refreshTimerArmed := true, lastError := le }
      oneCallResult currentResult).lastError = some e) ∧
    (refreshTimerFires
      { currentLocation := some loc, weatherData := wd,
        refreshTimerArmed := true, lastError := le }
      oneCallResult currentResult).refreshTimerArmed = false := by
  rcases hfail with ⟨e, he⟩ | ⟨⟨d, hd⟩, ⟨e, he⟩⟩
  · subst he
    exact ⟨rfl, ⟨e, rfl⟩, rfl⟩
  · subst hd
    subst he
    exact ⟨rfl, ⟨e, rfl⟩, rfl⟩

/-- Witness for the amended C4 theorem at the concrete Ready state. -/
theorem refreshTimer_failure_behavior_witness :
    (refreshTimerFires
      { currentLocation := some nyc, weatherData := some sampleSnapshot,
        refreshTimerArmed := true, lastError := none }
      (Except.error "OneCall API error: 500 Internal Server Error")
      (Except.ok 7)).weatherData = some sampleSnapshot ∧
    (∃ e, (refreshTimerFires
      { currentLocation := some nyc, weatherData := some sampleSnapshot,
        refreshTimerArmed := true, lastError := none }
      (Except.error "OneCall API error: 500 Internal Server Error")
      (Except.ok 7)).lastError = some e) ∧
    (refreshTimerFires
      { currentLocation := some nyc, weatherData := some sampleSnapshot,
        refreshTimerArmed := true, lastError := none }
      (Except.error "OneCall API error: 500 Internal Server Error")
      (Except.ok 7)).refreshTimerArmed = false :=
  refreshTimer_failure_behavior nyc (some sampleSnapshot) none
    (Except.error "OneCall API error: 500 Internal Server Error") (Except.ok 7)
    (Or.inl ⟨_, rfl⟩)

/-- Session user record stored under the currentUser key by UserService.login:
id, name and email only. -/
structure SessionUser where
  id : String
  name : String
  email : String
deriving Repr, DecidableEq

/-- Entry of a user's savedLocations list (UserService.saveLocation). -/
structure SavedLocation where
  id : String
  name : String
  country : String
  lat : ℚ
  lon : ℚ
deriving Repr, DecidableEq

/-- CONFIG.UI.SAVED_LOCATIONS_LIMIT from js/config.js. -/
def SAVED_LOCATIONS_LIMIT : Nat := 5

/-- UserService.saveLocation (src/js/user.js, lines 214-248): bail out
silently without a logged-in user or a location; reject a duplicate (same lat
and lon) with an inline message; reject when the list already holds the
configured limit; otherwise append the new entry (newId stands for the
Date.now().toString() identifier).  Returns the resulting list and the
rejection message, if any. -/
def saveLocation (currentUser : Option SessionUser)
    (savedLocations : List SavedLocation) (location : Option Location)
    (newId : String) : List SavedLocation × Option String :=
  match currentUser, location with
  | some _, some loc =>
    if savedLocations.any (fun l => l.lat == loc.lat && l.lon == loc.lon) then
      (savedLocations, some "This location is already saved")
    else if SAVED_LOCATIONS_LIMIT ≤ savedLocations.length then
      (savedLocations,
        some "You can only save up to 5 locations. Please remove one first.")
    else
      (savedLocations ++
        [{ id := newId
           name := loc.name
           country := loc.country
           lat := loc.lat
           lon := loc.lon }], none)
  | _, _ => (savedLocations, none)

/-- C5: for a logged-in user whose list already holds the configured maximum,
saveLocation rejects any further location with a validation message and
leaves the stored list unchanged — the attempt is rejected, not truncated —
and consequently a list within the limit stays within the limit. -/
theorem saveLocation_limit_enforced (u : SessionUser)
    (savedLocations : List SavedLocation) (loc : Location) (newId : String) :
    (SAVED_LOCATIONS_LIMIT ≤ savedLocations.length →
      (saveLocation (some u) savedLocations (some loc) newId).1 = savedLocations ∧
      ((saveLocation (some u) savedLocations (some loc) newId).2).isSome = true) ∧
    (savedLocations.length ≤ SAVED_LOCATIONS_LIMIT →
      ((saveLocation (some u) savedLocations (some loc) newId).1).length ≤
        SAVED_LOCATIONS_LIMIT) := by
  simp only [saveLocation]
  constructor
  · intro hfull
    split_ifs with h1
    · exact ⟨rfl, rfl⟩
    · exact ⟨rfl, rfl⟩
  · intro hle
    split_ifs with h1 h2
    · exact hle
    · exact hle
    · have h2' := Nat.lt_of_not_le h2
      simp only [List.length_append, List.length_cons, List.length_nil]
      omega

/-- Five saved locations filling a user's list to the configured limit. -/
def fullSavedList : List SavedLocation :=
  [⟨"1", "A", "US", 1, 1⟩, ⟨"2", "B", "US", 2, 2⟩, ⟨"3", "C", "US", 3, 3⟩,
   ⟨"4", "D", "US", 4, 4⟩, ⟨"5", "E", "US", 5, 5⟩]

/-- Concrete logged-in session used by the witnesses. -/
def aliceSession : SessionUser :=
  { id := "42", name := "Alice", email := "alice@example.com" }

/-- Witness for C5: at a full list of five saved locations, a sixth save is
rejected with a message, the list is unchanged, and the limit still holds. -/
theorem saveLocation_limit_enforced_witness :
    (saveLocation (some aliceSession) fullSavedList (some nyc) "99").1 = fullSavedList ∧
    ((saveLocation (some aliceSession) fullSavedList (some nyc) "99").2).isSome = true ∧
    ((saveLocation (some aliceSession) fullSavedList (some nyc) "99").1).length ≤
      SAVED_LOCATIONS_LIMIT :=
  ⟨((saveLocation_limit_enforced aliceSession fullSavedList nyc "99").1 (by decide)).1,
   ((saveLocation_limit_enforced aliceSession fullSavedList nyc "99").1 (by decide)).2,
   (saveLocation_limit_enforced aliceSession fullSavedList nyc "99").2 (by decide)⟩

/-- Exclusion parameter computed by WeatherService.getOneCallData
(src/unnamed/part_000, line 153): keep hourly when requested, always drop
minutely. -/
def oneCallExclude (includeHourly : Bool) : String :=
  if includeHourly then "minutely" else "minutely,hourly"

/-- Comma-split of the exclude parameter, over character lists so that it
evaluates in the kernel. -/
def splitCommaAux (cur : List Char) : List Char → List (List Char)
  | [] => [cur.reverse]
  | c :: rest =>
    if c == ',' then cur.reverse :: splitCommaAux [] rest
    else splitCommaAux (c :: cur) rest

/-- Comma-separated fields of a string. -/
def splitComma (s : String) : List String :=
  (splitCommaAux [] s.data).map String.mk

/-- Full upstream OneCall dataset before exclusions are applied. -/
structure FullOneCall where
  minutely : List Nat
  hourly : List Nat
  daily : List Nat
  alerts : List Alert
deriving Repr, DecidableEq

/-- Modelled from the spec: the upstream OneCall provider (external
collaborator, spec section 6) honours the comma-separated exclude query
parameter, omitting each named section from the JSON response; the alerts
field is present only when alerts are active. -/
def providerOneCall (full : FullOneCall) (exclude : String) : OneCallData :=
  { daily := full.daily
    hourly := if (splitComma exclude).contains "hourly" then none else some full.hourly
    alerts := if full.alerts.isEmpty then none else some full.alerts }

/-- WeatherService.getOneCallData composed with the provider model: one
request whose exclude parameter is determined by the includeHourly flag. -/
def getOneCallData (full : FullOneCall) (includeHourly : Bool) : OneCallData :=
  providerOneCall full (oneCallExclude includeHourly)

/-- C6: the includeHourly flag maps to the upstream exclusion parameter as
claimed — flag true excludes only minutely, flag false excludes both
minutely and hourly — and with the flag false the fetched result carries no
hourly entries (the app then stores hourly as the empty list). -/
theorem getOneCallData_exclude_mapping (full : FullOneCall) :
    oneCallExclude true = "minutely" ∧
    oneCallExclude false = "minutely,hourly" ∧
    (getOneCallData full true).hourly = some full.hourly ∧
    (getOneCallData full false).hourly = none ∧
    ((getOneCallData full false).hourly.getD []) = [] :=
  ⟨rfl, rfl, rfl, rfl, rfl⟩

/-- Modelled from the spec: the geocoding provider returns its ranked
candidate list truncated to the requested limit (the limit query parameter,
which searchLocation sets to 5). -/
def providerGeocode (candidates : List Location) (limit : Nat) : List Location :=
  candidates.take limit

/-- WeatherService.searchLocation (src/unnamed/part_000, lines 174-198):
request up to 5 candidates from the geocoding endpoint and throw a
no-results error when the returned array is empty. -/
def searchLocationService (candidates : List Location) (cityName : String) :
    Except String (List Location) :=
  let data := providerGeocode candidates 5
  if data.length = 0 then
    Except.error ("No locations found for \"" ++ cityName ++ "\"")
  else
    Except.ok data

/-- WeatherApp.searchLocation (src/unnamed/part_001, lines 236-263): search,
then take the first returned candidate as the new current location and
discard the rest; a thrown error is surfaced instead. -/
def appSearchLocation (candidates : List Location) (query : String) :
    Except String Location :=
  match searchLocationService candidates query with
  | Except.error e => Except.error e
  | Except.ok locations =>
    Except.ok (locations.headD { lat := 0, lon := 0, name := "", country := "" })

/-- C7: searchLocation returns the provider's ordered candidates, at most 5
of them; it fails with the no-results error exactly when the provider has
zero candidates; and the caller deterministically uses the first candidate,
discarding the rest. -/
theorem searchLocation_bounds_and_first (candidates : List Location) (q : String) :
    (searchLocationService candidates q =
      Except.error ("No locations found for \"" ++ q ++ "\"") ↔ candidates = []) ∧
    (∀ ls, searchLocationService candidates q = Except.ok ls →
      ls = candidates.take 5 ∧ ls.length ≤ 5) ∧
    (∀ c cs, candidates = c :: cs →
      appSearchLocation candidates q = Except.ok c) := by
  refine ⟨⟨?_, ?_⟩, ?_, ?_⟩
  · intro h
    cases candidates with
    | nil => rfl
    | cons c cs =>
      exfalso
      simp [searchLocationService, providerGeocode] at h
  · intro h
    subst h
    rfl
  · intro ls hls
    simp only [searchLocationService, providerGeocode] at hls
    split at hls
    · cases hls
    · injection hls with h
      subst h
      exact ⟨rfl, List.length_take_le 5 candidates⟩
  · intro c cs hc
    subst hc
    rfl

/-- Second concrete location fixture. -/
def losAngeles : Location :=
  { lat := 34.0522, lon := -118.2437, name := "Los Angeles", country := "US" }

/-- Witness for C7: with two candidates the caller gets exactly the first;
with zero candidates the service fails with the no-results error. -/
theorem searchLocation_bounds_and_first_witness :
    appSearchLocation [nyc, losAngeles] "New York" = Except.ok nyc ∧
    searchLocationService ([] : List Location) "Atlantis" =
      Except.error ("No locations found for \"" ++ "Atlantis" ++ "\"") :=
  ⟨(searchLocation_bounds_and_first [nyc, losAngeles] "New York").2.2 nyc [losAngeles] rfl,
   (searchLocation_bounds_and_first [] "Atlantis").1.mpr rfl⟩

/-- CONFIG.UI.TEMPERATURE_DECIMAL_PLACES from js/config.js. -/
def TEMPERATURE_DECIMAL_PLACES : Nat := 1

/-- Left-pad a numeral with zeros to the given number of digits. -/
def padZeros (d : Nat) (s : String) : String :=
  String.mk (List.replicate (d - s.length) '0') ++ s

/-- Number.prototype.toFixed for a non-negative rational: scale by ten to the
decimal places, round half up, and print the integer and fraction digits.
The scaled-and-rounded value floor of q * 10 ^ d + 1 / 2 is computed on the
numerator and denominator directly, as
(2 * num * 10 ^ d + den) / (2 * den) in integers. -/
def toFixedNonneg (d : Nat) (q : ℚ) : String :=
  let n : Nat := ((2 * q.num * (10 ^ d : Int) + (q.den : Int)) / (2 * (q.den : Int))).toNat
  if d = 0 then toString n
  else toString (n / 10 ^ d) ++ "." ++ padZeros d (toString (n % 10 ^ d))

/-- Number.prototype.toFixed model over rationals, handling the sign. -/
def toFixedStr (d : Nat) (q : ℚ) : String :=
  if q < 0 then "-" ++ toFixedNonneg d (-q) else toFixedNonneg d q

/-- WeatherService.formatTemperature (src/unnamed/part_000, lines 248-261):
missing numeric input (null/undefined, modelled none) renders the
placeholder; otherwise the value is rendered via toFixed with the configured
decimal places and suffixed by the unit symbol for the service's configured
unit system. -/
def formatTemperature (units : String) (temp : Option ℚ) : String :=
  match temp with
  | none => "--"
  | some t =>
    let roundedTemp := toFixedStr TEMPERATURE_DECIMAL_PLACES t
    if units = "imperial" then roundedTemp ++ "°F"
    else if units = "metric" then roundedTemp ++ "°C"
    else roundedTemp ++ "K"

/-- C8: formatTemperature renders 21.549 under metric units with the
configured one decimal place as "21.5°C", and renders missing input as the
"--" placeholder rather than failing. -/
theorem formatTemperature_scenario :
    formatTemperature "metric" (some (21549 / 1000 : ℚ)) = "21.5°C" ∧
    formatTemperature "metric" none = "--" := by
  constructor
  · have h : (21549 / 1000 : ℚ) = Rat.mk' 21549 1000 (by decide) (by decide) := by
      rw [Rat.mk'_eq_divInt]
      norm_num [Rat.divInt_eq_div]
    rw [h]
    decide
  · rfl

/-- CONFIG.ALERTS.CHECK_INTERVAL from js/config.js (15 min in ms). -/
def CHECK_INTERVAL : Nat := 15 * 60 * 1000

/-- CONFIG.DEFAULTS.REFRESH_INTERVAL from js/config.js (30 min in ms). -/
def REFRESH_INTERVAL : Nat := 30 * 60 * 1000

/-- Armed repeating alert timer: the setInterval period together with the
delay until its first callback — for setInterval(fn, T) the platform runs
the first callback only once T has elapsed. -/
structure AlertTimer where
  period : Nat
  firstFireIn : Nat
deriving Repr, DecidableEq

/-- Timer state of WeatherApp: the alert re-poll setInterval handle and the
full-refresh setTimeout delay, each none when not armed. -/
structure TimerState where
  alertCheckInterval : Option AlertTimer
  refreshTimer : Option Nat
deriving Repr, DecidableEq

/-- WeatherApp.startAlertChecking (src/unnamed/part_001, lines 511-535):
clear any existing alert interval and arm a fresh
setInterval(..., CHECK_INTERVAL); its first poll therefore runs only after
CHECK_INTERVAL has elapsed — the function performs no immediate check. -/
def startAlertChecking (s : TimerState) : TimerState :=
  { s with alertCheckInterval := some ⟨CHECK_INTERVAL, CHECK_INTERVAL⟩ }

/-- WeatherApp.toggleAlerts (src/unnamed/part_001, lines 541-552): enabling
starts alert checking; disabling clears only the alert interval. -/
def toggleAlerts (s : TimerState) (enabled : Bool) : TimerState :=
  if enabled then startAlertChecking s
  else { s with alertCheckInterval := none }

/-- Timer state with alerts disabled and the refresh timer armed. -/
def refreshOnlyState : TimerState :=
  { alertCheckInterval := none, refreshTimer := some REFRESH_INTERVAL }

/-- C9 counterexample: re-enabling alerts arms setInterval with the full
check interval, so the first alert poll after re-enabling happens only after
CHECK_INTERVAL (900000 ms) — not immediately, against the claim that the
first poll is immediate. -/
theorem toggleAlerts_first_poll_not_immediate :
    ((toggleAlerts refreshOnlyState true).alertCheckInterval.map
      AlertTimer.firstFireIn) = some 900000 ∧ (900000 : Nat) ≠ 0 :=
  ⟨rfl, by decide⟩

/-- C9 amended: disabling alerts cancels only the alert re-poll timer and
leaves the full-refresh timer untouched; re-enabling re-arms the re-poll
timer, but its first poll comes only after the configured check interval
elapses, not immediately. -/
theorem toggleAlerts_timer_semantics (s : TimerState) :
    (toggleAlerts s false).alertCheckInterval = none ∧
    (toggleAlerts s false).refreshTimer = s.refreshTimer ∧
    (toggleAlerts s true).alertCheckInterval =
      some { period := CHECK_INTERVAL, firstFireIn := CHECK_INTERVAL } ∧
    (toggleAlerts s true).refreshTimer = s.refreshTimer :=
  ⟨rfl, rfl, rfl, rfl⟩

/-- Registered user record in the users list of browser storage, cleartext
password included. -/
structure StoredUser where
  id : String
  name : String
  email : String
  password : String
  savedLocations : List SavedLocation
deriving Repr, DecidableEq

/-- Result of a successful UserService.login: the in-memory currentUser, the
loaded savedLocations, and the value persisted under the currentUser storage
key. -/
structure LoginResult where
  currentUser : SessionUser
  savedLocations : List SavedLocation
  storedCurrentUser : SessionUser
deriving Repr, DecidableEq

/-- UserService.login (src/js/user.js, lines 165-198): find the first
registered user matching email and password; on failure report invalid
credentials and change nothing; on success set currentUser to a record of
id, name and email only, load that user's saved locations, and persist that
same currentUser record to storage. -/
def login (users : List StoredUser) (email password : String) :
    Option LoginResult :=
  match users.find? (fun u => u.email == email && u.password == password) with
  | none => none
  | some user =>
    some { currentUser := { id := user.id, name := user.name, email := user.email }
           savedLocations := user.savedLocations
           storedCurrentUser := { id := user.id, name := user.name, email := user.email } }

/-- C10: every successful login stores — in memory and in the key-value
store — a session record holding exactly the matched registered user's id,
name and email; the password stays only in the registered-users list and
never enters the session record. -/
theorem login_session_excludes_password (users : List StoredUser)
    (email password : String) (r : LoginResult)
    (h : login users email password = some r) :
    ∃ u ∈ users, u.email = email ∧ u.password = password ∧
      r.currentUser = { id := u.id, name := u.name, email := u.email } ∧
      r.storedCurrentUser = r.currentUser ∧
      r.savedLocations = u.savedLocations := by
  unfold login at h
  cases hf : users.find? (fun u => u.email == email && u.password == password) with
  | none =>
    rw [hf] at h
    cases h
  | some u =>
    rw [hf] at h
    have hp : (u.email == email) = true ∧ (u.password == password) = true := by
      simpa using List.find?_some hf
    injection h with h2
    subst h2
    exact ⟨u, List.mem_of_find?_eq_some hf, eq_of_beq hp.1, eq_of_beq hp.2,
      rfl, rfl, rfl⟩

/-- Registered user fixture with a cleartext password. -/
def aliceStored : StoredUser :=
  { id := "42", name := "Alice", email := "alice@example.com",
    password := "hunter2", savedLocations := [] }

/-- Session produced by logging in as the fixture user. -/
def aliceLoginResult : LoginResult :=
  { currentUser := { id := "42", name := "Alice", email := "alice@example.com" }
    savedLocations := []
    storedCurrentUser := { id := "42", name := "Alice", email := "alice@example.com" } }

/-- Witness for C10: a concrete successful login whose session record is the
password-free projection of the stored user. -/
theorem login_session_excludes_password_witness :
    ∃ u ∈ [aliceStored], u.email = "alice@example.com" ∧ u.password = "hunter2" ∧
      aliceLoginResult.currentUser = { id := u.id, name := u.name, email := u.email } ∧
      aliceLoginResult.storedCurrentUser = aliceLoginResult.currentUser ∧
      aliceLoginResult.savedLocations = u.savedLocations :=
  login_session_excludes_password [aliceStored] "alice@example.com" "hunter2"
    aliceLoginResult (by decide)

end WeatherVerify
